import Mathlib

/-!
Verification of the RAG ingestion/query pipeline of the repository
(`backend/tasks/rag_service.py`, `backend/tasks/reddit_service.py`).

The Python services are shallowly embedded below: pure string processing is
translated function-by-function from the source; the external collaborators
(the Chroma vector store, the embedding model, the LLM, the Reddit API) are
modelled from the spec's interface contracts (section 4 and 6 of spec.md) and
passed in as explicit parameters, so every orchestrator is a total Lean
function from its inputs and its collaborators' behaviour to an
`Except`-typed outcome.
-/

namespace RagPipeline

/-- Scalar metadata attached to a stored passage.  The Reddit loader
(`reddit_service.py` lines 93-101) populates all four fields; absent keys are
`none` (Python dict lookup with a default). -/
structure Metadata where
  author : Option String := none
  score : Option Int := none
  source : Option String := none
  post_id : Option String := none
deriving DecidableEq, Repr

/-- A LangChain `Document`: page content plus metadata. -/
structure Doc where
  page_content : String
  metadata : Metadata := {}
deriving DecidableEq, Repr

/-- A PRAW comment as consumed by `index_reddit_post`: `body` is `none` when
the attribute is missing or `None`, `author` is `none` for deleted authors,
`score` is `none` when the attribute is missing (`getattr(comment, 'score', 0)`). -/
structure RedditComment where
  body : Option String := none
  author : Option String := none
  score : Option Int := none
deriving DecidableEq, Repr

/-- Does `pat` start the list `cs`? -/
def charsStartWith : List Char → List Char → Bool
  | [], _ => true
  | _ :: _, [] => false
  | p :: ps, c :: cs => p = c && charsStartWith ps cs

/-- Does `pat` occur (as a contiguous run) in `cs`? -/
def charsContain (pat : List Char) : List Char → Bool
  | [] => pat.isEmpty
  | c :: cs => charsStartWith pat (c :: cs) || charsContain pat cs

/-- Python's `pat in s` substring test. -/
def containsSubstr (s pat : String) : Bool :=
  charsContain pat.toList s.toList

/-- Python's `str.strip()`: drop whitespace from both ends. -/
def pyStrip (s : String) : String :=
  String.mk (((s.toList.dropWhile Char.isWhitespace).reverse.dropWhile Char.isWhitespace).reverse)

/-- Python's `str.lower()` (ASCII case folding, as the source's patterns are
ASCII). -/
def pyLower (s : String) : String :=
  String.mk (s.toList.map Char.toLower)

/-- Python's `sep.join(xs)`. -/
def joinSep (sep : String) : List String → String
  | [] => ""
  | [s] => s
  | s :: ss => s ++ sep ++ joinSep sep ss

/-! ## Reddit URL → post id (`extract_post_id_from_url`, reddit_service.py 18-31)

The source applies `re.search` with the pattern `/comments/([a-zA-Z0-9]+)/`.
Because the character class excludes `/`, the regex matches at a position
exactly when the literal `/comments/` starts there, followed by a non-empty
maximal alphanumeric run whose next character is `/`; the captured group is
that run.  `re.search` takes the leftmost matching position. -/

/-- The character class `[a-zA-Z0-9]` of the source regex (ASCII letters and digits). -/
def isAlnumAscii (c : Char) : Bool :=
  (('a' ≤ c ∧ c ≤ 'z') ∨ ('A' ≤ c ∧ c ≤ 'Z') ∨ ('0' ≤ c ∧ c ≤ '9') : Prop)

/-- Strip a literal prefix from a character list, or fail. -/
def dropLiteral : List Char → List Char → Option (List Char)
  | [], cs => some cs
  | _ :: _, [] => none
  | p :: ps, c :: cs => if p = c then dropLiteral ps cs else none

/-- Attempt the regex `/comments/([a-zA-Z0-9]+)/` at the head of `cs`,
returning the captured group on success. -/
def matchCommentsAt (cs : List Char) : Option (List Char) :=
  match dropLiteral "/comments/".toList cs with
  | none => none
  | some rest =>
    let run := rest.takeWhile isAlnumAscii
    if run.isEmpty then none
    else
      match rest.dropWhile isAlnumAscii with
      | c :: _ => if c = '/' then some run else none
      | [] => none

/-- Leftmost match of the pattern over all start positions (`re.search`). -/
def searchComments : List Char → Option (List Char)
  | [] => none
  | c :: cs =>
    match matchCommentsAt (c :: cs) with
    | some run => some run
    | none => searchComments cs

/-- Embedding of `extract_post_id_from_url` (reddit_service.py 18-31): the captured group of
the leftmost regex match, or a raised `ValueError` (here: `Except.error`). -/
def extract_post_id_from_url (url : String) : Except String String :=
  match searchComments url.toList with
  | some run => .ok (String.mk run)
  | none => .error ("Could not extract post ID from URL: " ++ url)

/-- Helper for `specSegmentAfterComments`: characters after the first
occurrence of `/comments/`, cut at the next `/` or the end. -/
def specSegmentAux : List Char → Option (List Char)
  | [] => none
  | c :: cs =>
    match dropLiteral "/comments/".toList (c :: cs) with
    | some rest => some (rest.takeWhile fun x => x ≠ '/')
    | none => specSegmentAux cs

/-- Following the spec's words (a refinement reference, deliberately NOT
translated from the source): "a Reddit URL is normalized to a thread id by
matching the path segment immediately following `/comments/`" — the
characters after the first occurrence of `/comments/` up to the next `/` or
the end of the URL. -/
def specSegmentAfterComments (url : String) : Option String :=
  (specSegmentAux url.toList).map String.mk

/-! ## Reddit comment filtering (`index_reddit_post`, reddit_service.py 79-102) -/

/-- The comment-filtering loop of `index_reddit_post` (lines 79-102): skip a
comment whose body is missing or falsy (empty); trim the body; keep it only
when the trimmed body has at least 50 characters, recording author
(`"[deleted]"` when unavailable), score (default 0), the submission title as
`source` and the submission id as `post_id`. -/
def buildDocuments (title pid : String) (comments : List RedditComment) : List Doc :=
  comments.filterMap fun c =>
    match c.body with
    | none => none
    | some b =>
      if b = "" then none
      else
        let comment_body := pyStrip b
        if 50 ≤ comment_body.length then
          some { page_content := comment_body
                 metadata := { author := some (c.author.getD "[deleted]")
                               score := some (c.score.getD 0)
                               source := some title
                               post_id := some pid } }
        else none

/-- Outcome of `index_reddit_post` after the submission was fetched: either
the returned error dictionary (`{"status": "error", ...}`, lines 104-108) or
the success dictionary (lines 125-131). -/
inductive IndexOutcome where
  | errorResult (msg : String)
  | success (post_title post_id : String) (comment_count : Nat) (original_url : String)
deriving DecidableEq, Repr

/-- Tail of `index_reddit_post` (reddit_service.py 79-131): build the filtered
documents, return the error dictionary when none survive, otherwise upsert
into collection `reddit_<post id>` and return the success dictionary.  The
second component is what is written to the vector store (`none` = nothing). -/
def indexRedditOutcome (title pid url : String) (comments : List RedditComment) :
    IndexOutcome × Option (String × List Doc) :=
  let documents := buildDocuments title pid comments
  if documents.isEmpty then
    (.errorResult "No comments found that meet the minimum length requirement (50 characters)",
     none)
  else
    (.success title pid documents.length url, some ("reddit_" ++ pid, documents))

/-- Embedding of `index_reddit_post` (reddit_service.py 34-131) end to end.  The Reddit API
fetch is a parameter (`fetch pid` returns the submission title and flattened
comment list, or a failure message); a raised `ValueError` is `Except.error`.
Note that when zero comments survive the filter the function RETURNS the
error dictionary (`Except.ok` around `IndexOutcome.errorResult`) — it does
not raise. -/
def index_reddit_post (credsOk : Bool)
    (fetch : String → Except String (String × List RedditComment)) (url : String) :
    Except String (IndexOutcome × Option (String × List Doc)) :=
  match extract_post_id_from_url url with
  | .error m => .error m
  | .ok post_id =>
    if !credsOk then
      .error "Reddit API credentials not configured. Please set REDDIT_CLIENT_ID and REDDIT_CLIENT_SECRET in .env file"
    else
      match fetch post_id with
      | .error m => .error m
      | .ok (title, comments) => .ok (indexRedditOutcome title post_id url comments)

/-! ## Chunker (`rag_service.py` 42-52) -/

/-- Modelled from the spec: the Chunker (`RecursiveCharacterTextSplitter`
with `chunk_size=1000`, `chunk_overlap=100`, external library code not under
src/).  Spec section 4.2 and the section 8 scenario pin the behaviour on text
without break points: windows of at most 1000 characters, consecutive windows
overlapping in 100 characters (a 1500-character page yields chars [0,1000) and
[900,1500)).  We model the hard-cut case: windows starting every 900
characters. -/
def chunkCharsFuel : Nat → List Char → List (List Char)
  | 0, cs => [cs]
  | n + 1, cs =>
    if cs.length ≤ 1000 then [cs]
    else cs.take 1000 :: chunkCharsFuel n (cs.drop 900)

/-- Chunk a character list; `cs.length` steps of fuel always suffice since
every recursive call removes 900 characters. -/
def chunkChars (cs : List Char) : List (List Char) :=
  chunkCharsFuel cs.length cs

/-- Split one text into chunk texts. -/
def chunkText (s : String) : List String :=
  (chunkChars s.toList).map String.mk

/-- Embedding of `text_splitter.split_documents` (rag_service.py 46-52): every chunk keeps
the metadata of its parent document unmodified. -/
def splitDocuments (docs : List Doc) : List Doc :=
  docs.flatMap fun d => (chunkText d.page_content).map fun t => { d with page_content := t }

/-- Embedding of `index_document` (rag_service.py 24-79): load pages, split into chunks,
embed and store under collection `doc_<id>`.  The loader is a parameter (the
PDF parser is external); the returned pair is the stored collection.
`filter_complex_metadata` only drops non-scalar metadata values and is the
identity on our scalar `Metadata`. -/
def index_document (document_id : Int) (pages : List Doc) : String × List Doc :=
  ("doc_" ++ toString document_id, splitDocuments pages)

/-! ## Anonymized context assembly (`query_reddit_post`, reddit_service.py 194-246) -/

/-- A row of the `citation_mapping` side table (reddit_service.py 204-209). -/
structure CitationRecord where
  author : String
  comment_id : Nat
deriving DecidableEq, Repr

/-- The anonymization loop, text half (reddit_service.py 199-202): one line
`Comment <i>: <text>` per retrieved document, `i` the 1-based retrieval rank,
`<text>` the stripped page content.  No metadata is read. -/
def anonymizedComments (docs : List Doc) : List String :=
  (docs.map fun d => pyStrip d.page_content).enum.map fun p =>
    "Comment " ++ toString (p.1 + 1) ++ ": " ++ p.2

/-- The context string handed to the generation chain
(reddit_service.py 246, 256): the anonymized lines joined by blank lines. -/
def anonymizedContext (docs : List Doc) : String :=
  joinSep "\n\n" (anonymizedComments docs)

/-- The anonymization loop, attribution half (reddit_service.py 204-209):
author per rank, `"[deleted]"` when the metadata key is absent. -/
def citationMapping (docs : List Doc) : List CitationRecord :=
  docs.enum.map fun p =>
    { author := p.2.metadata.author.getD "[deleted]", comment_id := p.1 + 1 }

/-- Embedding of `unique_authors` (reddit_service.py 280): the authors of the citation
mapping, the literal `"[deleted]"` excluded, deduplicated (`list(set(...))`;
Python set order is arbitrary, so theorems compare the result as a set). -/
def uniqueAuthors (docs : List Doc) : List String :=
  (((citationMapping docs).map CitationRecord.author).filter (· ≠ "[deleted]")).dedup

/-- The `source_url` field of the response (reddit_service.py 285): Python
`original_url or f"..."` falls back when `original_url` is `None` OR the
empty string (falsiness). -/
def resolveSourceUrl (original_url : Option String) (post_id : String) : String :=
  let fallback := "https://www.reddit.com/comments/" ++ post_id ++ "/"
  match original_url with
  | none => fallback
  | some u => if u = "" then fallback else u

/-! ## Error taxonomy (spec section 7) and generation-failure classification
(`query_reddit_post`, reddit_service.py 265-276) -/

/-- The typed failures of the query orchestrators.  The source raises
`ValueError` with a message per case; the spec (section 7) names the cases,
and each constructor carries the message the source builds. -/
inductive RagError where
  | invalidRequest (msg : String)
  | configurationError (msg : String)
  | collectionNotFound (msg : String)
  | emptyRetrieval (msg : String)
  | authenticationError (msg : String)
  | quotaExceeded (msg : String)
  | genericGeneration (msg : String)
deriving DecidableEq, Repr

/-- The exception classifier of `query_reddit_post` (reddit_service.py
269-276), translated literally: `"API key" in error_msg` tests the RAW
message (case-sensitive), `"authentication" in error_msg.lower()`,
`"quota" in error_msg.lower()` and `"rate limit" in error_msg.lower()` test
the lowered message. -/
def classifyGenFailure (error_msg : String) : RagError :=
  if containsSubstr error_msg "API key" || containsSubstr (pyLower error_msg) "authentication" then
    .authenticationError
      ("Gemini API authentication failed. Check your GOOGLE_API_KEY. Error: " ++ error_msg)
  else if containsSubstr (pyLower error_msg) "quota" || containsSubstr (pyLower error_msg) "rate limit" then
    .quotaExceeded
      ("Gemini API quota exceeded or rate limited. Please try again later. Error: " ++ error_msg)
  else
    .genericGeneration ("Failed to generate answer from Gemini API: " ++ error_msg)

/-- The generation try-block (reddit_service.py 264-276): invoke the chain;
an empty or whitespace-only answer raises a `ValueError` that the same
handler catches, so it too goes through the classifier. -/
def runGeneration (gen : String → String → Except String String)
    (context question : String) : Except RagError String :=
  match gen context question with
  | .error m => .error (classifyGenFailure m)
  | .ok answer =>
    if pyStrip answer = "" then .error (classifyGenFailure "Gemini API returned an empty response")
    else .ok answer

/-! ## Vector Collection Store (spec sections 4.4 and 6) -/

/-- Modelled from the spec: the Vector Collection Store (Chroma, external
library code not under src/).  Spec section 4.4: collections are isolated
namespaces keyed by the collection key; `query` against a key that was never
populated fails with `CollectionNotFoundError`. -/
structure VectorStore where
  collections : List (String × List Doc) := []
deriving Repr

/-- The documents stored under a collection key, `none` when the key was
never populated. -/
def VectorStore.find (vs : VectorStore) (key : String) : Option (List Doc) :=
  (vs.collections.find? fun p => p.1 = key).map Prod.snd

/-- Modelled from the spec: `upsert` (section 4.4) adds passages to the named
collection, creating it if absent; re-indexing is additive. -/
def VectorStore.upsert (vs : VectorStore) (key : String) (docs : List Doc) : VectorStore :=
  match vs.find key with
  | none => { collections := vs.collections ++ [(key, docs)] }
  | some _ =>
    { collections := vs.collections.map fun p => if p.1 = key then (p.1, p.2 ++ docs) else p }

/-- Modelled from the spec: the Retriever similarity search over one
collection (section 4.5), a stand-in used in witnesses — returns at most `k`
passages of the collection. -/
def takeRetrieve (docs : List Doc) (_query : String) (k : Nat) : List Doc :=
  docs.take k

/-! ## Query orchestrators -/

/-- The response dictionary of `query_reddit_post` (reddit_service.py 282-286). -/
structure RedditQueryResult where
  answer : String
  citations : List String
  source_url : String
deriving DecidableEq, Repr

/-- Embedding of `query_reddit_post` (reddit_service.py 134-286).  External collaborators
are parameters: the vector store contents, the retriever (`k = 10`, line
178), the generation chain `gen` (context and question to answer or failure
message), and which credentials are configured.  Steps, in source order:
validate `post_id` and `query` (Python falsiness: empty string), check the
API key, load collection `reddit_<post_id>` (absent collection =
`CollectionNotFoundError`, the wrapped load failure of lines 166-173),
retrieve, fail on empty retrieval (lines 187-188), assemble the anonymized
context, generate, and package answer, citations and source url. -/
def query_reddit_post (store : VectorStore)
    (retrieve : List Doc → String → Nat → List Doc)
    (gen : String → String → Except String String) (apiKeyConfigured : Bool)
    (post_id query : String) (original_url : Option String := none) :
    Except RagError RedditQueryResult :=
  if post_id = "" then .error (.invalidRequest "post_id is required")
  else if query = "" then .error (.invalidRequest "query is required")
  else if !apiKeyConfigured then
    .error (.configurationError
      "Google Gemini API key not configured. Please set GOOGLE_API_KEY in .env file")
  else
    match store.find ("reddit_" ++ post_id) with
    | none =>
      .error (.collectionNotFound
        ("Failed to load ChromaDB collection reddit_" ++ post_id ++
          ". The post may not have been indexed yet."))
    | some docs =>
      let retrieved_docs := retrieve docs query 10
      if retrieved_docs.isEmpty then
        .error (.emptyRetrieval
          "No relevant comments found for query. The post may not have enough indexed comments.")
      else
        match runGeneration gen (anonymizedContext retrieved_docs) query with
        | .error e => .error e
        | .ok answer =>
          .ok { answer := answer
                citations := uniqueAuthors retrieved_docs
                source_url := resolveSourceUrl original_url post_id }

/-- Embedding of `query_document` (rag_service.py 81-145).  No input validation and no
empty-retrieval check: the retrieved chunks (`k = 4`, line 101) are joined by
blank lines (`format_docs`, line 126-127, no stripping) and the generator's
answer is returned as-is.  An absent collection is `CollectionNotFoundError`
(spec-modelled store). -/
def query_document (store : VectorStore)
    (retrieve : List Doc → String → Nat → List Doc)
    (gen : String → String → String) (document_id : Int) (query : String) :
    Except RagError String :=
  match store.find ("doc_" ++ toString document_id) with
  | none =>
    .error (.collectionNotFound
      ("Collection doc_" ++ toString document_id ++ " was never populated."))
  | some docs =>
    let retrieved := retrieve docs query 4
    let context := joinSep "\n\n" (retrieved.map Doc.page_content)
    .ok (gen context query)

/-- Modelled from the spec: the document-variant Answer Generator (the
external LLM behind the fixed prompt of rag_service.py 111-119).  The prompt
instructs the model to state that it cannot find the answer when the context
lacks it; with an empty context that is the only compliant behaviour, so the
model returns that statement. -/
def modelDocumentGenerator (context _question : String) : String :=
  if pyStrip context = "" then
    "I cannot find the answer in the provided documents."
  else
    "Answer synthesized from the provided context."

/-! ## Helper lemmas -/

theorem enumFrom_map_eq (f : α → β) : ∀ (n : Nat) (l : List α),
    (l.map f).enumFrom n = (l.enumFrom n).map fun p => (p.1, f p.2)
  | _, [] => rfl
  | n, a :: l => by
    simp only [List.map_cons, List.enumFrom_cons, enumFrom_map_eq f (n + 1) l]

theorem enum_map_eq (f : α → β) (l : List α) :
    (l.map f).enum = l.enum.map fun p => (p.1, f p.2) :=
  enumFrom_map_eq f 0 l

/-- The function `anonymizedComments` reads nothing but the page contents. -/
theorem anonymizedComments_eq_texts (docs : List Doc) :
    anonymizedComments docs = ((docs.map Doc.page_content).map pyStrip).enum.map
      (fun p => "Comment " ++ toString (p.1 + 1) ++ ": " ++ p.2) := by
  simp only [anonymizedComments, List.map_map]
  rfl

theorem length_strMk (l : List Char) : (String.mk l).length = l.length := rfl

theorem dropWhile_replicate_not_ws (n : Nat) (c : Char) (h : c.isWhitespace = false) :
    (List.replicate n c).dropWhile Char.isWhitespace = List.replicate n c := by
  cases n with
  | zero => simp
  | succ m => simp [List.replicate_succ, List.dropWhile_cons, h]

theorem pyStrip_replicate (n : Nat) (c : Char) (h : c.isWhitespace = false) :
    pyStrip (String.mk (List.replicate n c)) = String.mk (List.replicate n c) := by
  show String.mk _ = _
  rw [show (String.mk (List.replicate n c)).toList = List.replicate n c from rfl,
    dropWhile_replicate_not_ws n c h, List.reverse_replicate,
    dropWhile_replicate_not_ws n c h, List.reverse_replicate]

theorem mk_replicate_ne_empty (n : Nat) (c : Char) (h : 0 < n) :
    String.mk (List.replicate n c) ≠ "" := by
  intro he
  have hl := congrArg String.length he
  rw [show ("" : String).length = 0 from rfl] at hl
  simp only [length_strMk, List.length_replicate] at hl
  omega

/-- Evaluation of `buildDocuments` on a single comment that passes the filter. -/
theorem buildDocuments_singleton (title pid b : String) (a : Option String) (sc : Option Int)
    (hne : b ≠ "") (hlen : 50 ≤ (pyStrip b).length) :
    buildDocuments title pid [{ body := some b, author := a, score := sc }] =
      [{ page_content := pyStrip b
         metadata := { author := some (a.getD "[deleted]"), score := some (sc.getD 0)
                       source := some title, post_id := some pid } }] := by
  simp [buildDocuments, hne, hlen]

/-- Chunk boundedness: with enough fuel every chunk has at most 1000 characters. -/
theorem chunkCharsFuel_length_le : ∀ (n : Nat) (cs : List Char),
    cs.length ≤ 1000 + 900 * n → ∀ c ∈ chunkCharsFuel n cs, c.length ≤ 1000
  | 0, cs, h, c, hc => by
    simp only [chunkCharsFuel, List.mem_singleton] at hc
    subst hc
    omega
  | n + 1, cs, h, c, hc => by
    rw [chunkCharsFuel] at hc
    split at hc
    case isTrue hle =>
      simp only [List.mem_singleton] at hc
      subst hc
      exact hle
    case isFalse hgt =>
      rcases List.mem_cons.1 hc with hc | hc
      · subst hc
        simp [List.length_take]
      · refine chunkCharsFuel_length_le n (cs.drop 900) ?_ c hc
        simp only [List.length_drop]
        omega

theorem chunkText_length_le (s : String) : ∀ t ∈ chunkText s, t.length ≤ 1000 := by
  intro t ht
  simp only [chunkText, List.mem_map] at ht
  obtain ⟨c, hc, rfl⟩ := ht
  rw [length_strMk]
  exact chunkCharsFuel_length_le s.toList.length s.toList (by omega) c hc

theorem matchCommentsAt_nil : matchCommentsAt [] = none := rfl

theorem dropLiteral_eq_some : ∀ (p cs rest : List Char),
    (dropLiteral p cs = some rest ↔ cs = p ++ rest)
  | [], cs, rest => by simp [dropLiteral, eq_comm]
  | _ :: _, [], _ => by simp [dropLiteral]
  | p :: ps, c :: cs, rest => by
    rw [dropLiteral]
    by_cases h : p = c
    · subst h
      rw [if_pos rfl, dropLiteral_eq_some ps cs rest]
      simp
    · rw [if_neg h]
      simp only [List.cons_append, List.cons.injEq]
      constructor
      · intro hfalse; exact Option.noConfusion hfalse
      · rintro ⟨rfl, -⟩; exact absurd rfl h

theorem takeWhile_append_all (p : Char → Bool) : ∀ (l1 : List Char) (x : Char) (l2 : List Char),
    (∀ a ∈ l1, p a = true) → p x = false → (l1 ++ x :: l2).takeWhile p = l1
  | [], x, l2, _, hx => by simp [List.takeWhile_cons, hx]
  | a :: l, x, l2, h1, hx => by
    have ha : p a = true := h1 a (by simp)
    simp [List.takeWhile_cons, ha,
      takeWhile_append_all p l x l2 (fun b hb => h1 b (by simp [hb])) hx]

theorem dropWhile_append_all (p : Char → Bool) : ∀ (l1 : List Char) (x : Char) (l2 : List Char),
    (∀ a ∈ l1, p a = true) → p x = false → (l1 ++ x :: l2).dropWhile p = x :: l2
  | [], x, l2, _, hx => by simp [List.dropWhile_cons, hx]
  | a :: l, x, l2, h1, hx => by
    have ha : p a = true := h1 a (by simp)
    simp [List.dropWhile_cons, ha,
      dropWhile_append_all p l x l2 (fun b hb => h1 b (by simp [hb])) hx]

/-- The regex attempt at one position succeeds with group `run` exactly when
the text at that position is `/comments/`, then the non-empty alphanumeric
`run`, then a further `/`. -/
theorem matchCommentsAt_eq_some (cs run : List Char) :
    matchCommentsAt cs = some run ↔
      ∃ tail, cs = "/comments/".toList ++ run ++ '/' :: tail
        ∧ run ≠ [] ∧ ∀ c ∈ run, isAlnumAscii c = true := by
  constructor
  · intro h
    rw [matchCommentsAt] at h
    cases hdl : dropLiteral "/comments/".toList cs with
    | none => rw [hdl] at h; exact Option.noConfusion h
    | some rest =>
      rw [hdl] at h
      dsimp only at h
      by_cases hre : (rest.takeWhile isAlnumAscii).isEmpty
      · rw [if_pos hre] at h; exact Option.noConfusion h
      · rw [if_neg hre] at h
        cases hdw : rest.dropWhile isAlnumAscii with
        | nil => rw [hdw] at h; exact Option.noConfusion h
        | cons x tl =>
          rw [hdw] at h
          dsimp only at h
          by_cases hx : x = '/'
          · rw [if_pos hx] at h
            subst hx
            obtain rfl := Option.some.inj h
            refine ⟨tl, ?_, ?_, ?_⟩
            · have hr : rest = List.takeWhile isAlnumAscii rest ++ '/' :: tl := by
                conv_lhs => rw [← List.takeWhile_append_dropWhile (p := isAlnumAscii) (l := rest)]
                rw [hdw]
              rw [(dropLiteral_eq_some _ _ _).mp hdl]
              conv_lhs => rw [hr]
              exact (List.append_assoc _ _ _).symm
            · intro hnil
              rw [hnil] at hre
              exact hre rfl
            · intro c hc
              exact List.mem_takeWhile_imp hc
          · rw [if_neg hx] at h; exact Option.noConfusion h
  · rintro ⟨tail, rfl, hne, hall⟩
    have hslash : isAlnumAscii '/' = false := by decide
    have hempty : run.isEmpty = false := by
      cases run with
      | nil => exact absurd rfl hne
      | cons a l => rfl
    have hdl2 : dropLiteral "/comments/".toList
        ("/comments/".toList ++ run ++ '/' :: tail) = some (run ++ '/' :: tail) :=
      (dropLiteral_eq_some _ _ _).mpr rfl
    rw [matchCommentsAt, hdl2]
    dsimp only
    rw [takeWhile_append_all isAlnumAscii run '/' tail hall hslash,
      dropWhile_append_all isAlnumAscii run '/' tail hall hslash, hempty]
    simp

/-- The search succeeds with group `run` exactly when the regex matches at
some position `k` and at no earlier position. -/
theorem searchComments_eq_some : ∀ (cs run : List Char),
    (searchComments cs = some run ↔
      ∃ k, matchCommentsAt (cs.drop k) = some run
        ∧ ∀ j < k, matchCommentsAt (cs.drop j) = none)
  | [], run => by
    constructor
    · intro h; exact Option.noConfusion h
    · rintro ⟨k, hk, -⟩
      rw [List.drop_nil, matchCommentsAt_nil] at hk
      exact Option.noConfusion hk
  | c :: cs, run => by
    rw [searchComments]
    cases hm : matchCommentsAt (c :: cs) with
    | some r =>
      dsimp only
      constructor
      · intro h
        obtain rfl := Option.some.inj h
        exact ⟨0, by simpa using hm, fun j hj => absurd hj (by omega)⟩
      · rintro ⟨k, hk, hlt⟩
        cases k with
        | zero =>
          rw [List.drop_zero, hm] at hk
          exact hk
        | succ k =>
          have h0 := hlt 0 (by omega)
          rw [List.drop_zero, hm] at h0
          exact Option.noConfusion h0
    | none =>
      dsimp only
      rw [searchComments_eq_some cs run]
      constructor
      · rintro ⟨k, hk, hlt⟩
        refine ⟨k + 1, by simpa using hk, ?_⟩
        intro j hj
        cases j with
        | zero => simpa using hm
        | succ j =>
          have := hlt j (by omega)
          simpa using this
      · rintro ⟨k, hk, hlt⟩
        cases k with
        | zero =>
          rw [List.drop_zero, hm] at hk
          exact Option.noConfusion hk
        | succ k =>
          refine ⟨k, by simpa using hk, ?_⟩
          intro j hj
          have := hlt (j + 1) (by omega)
          simpa using this

/-- The search fails exactly when the regex matches at no position. -/
theorem searchComments_eq_none : ∀ cs : List Char,
    (searchComments cs = none ↔ ∀ k, matchCommentsAt (cs.drop k) = none)
  | [] => by
    constructor
    · intro _ k
      rw [List.drop_nil, matchCommentsAt_nil]
    · intro _; rfl
  | c :: cs => by
    rw [searchComments]
    cases hm : matchCommentsAt (c :: cs) with
    | some r =>
      dsimp only
      constructor
      · intro h; exact Option.noConfusion h
      · intro h
        have h0 := h 0
        rw [List.drop_zero, hm] at h0
        exact Option.noConfusion h0
    | none =>
      dsimp only
      rw [searchComments_eq_none cs]
      constructor
      · intro h k
        cases k with
        | zero => simpa using hm
        | succ k => simpa using h k
      · intro h k
        have := h (k + 1)
        simpa using this

/-! ## Claims -/

/-- Claim C1: for every Reddit query, the context string passed to the Answer
Generator consists solely of lines `Comment <i>: <text>` joined by blank
lines, `i` the 1-based retrieval rank and `<text>` the retrieved passage's
text (every passage indexed by this pipeline is stored stripped, hence the
strip-invariance hypothesis), and the context is a function of the passage
texts alone — no author, score, or other metadata value can reach it. -/
theorem anonymized_context_text_only (docs : List Doc)
    (htrim : ∀ d ∈ docs, pyStrip d.page_content = d.page_content) :
    anonymizedContext docs =
      joinSep "\n\n" (docs.enum.map fun p =>
        "Comment " ++ toString (p.1 + 1) ++ ": " ++ p.2.page_content)
    ∧ ∀ docs' : List Doc, docs'.map Doc.page_content = docs.map Doc.page_content →
        anonymizedContext docs' = anonymizedContext docs := by
  constructor
  · unfold anonymizedContext
    congr 1
    rw [anonymizedComments_eq_texts]
    have hmap : (docs.map Doc.page_content).map pyStrip = docs.map Doc.page_content := by
      rw [List.map_map]
      exact List.map_congr_left fun d hd => htrim d hd
    rw [hmap, enum_map_eq]
    simp [List.map_map]
  · intro docs' h
    unfold anonymizedContext
    rw [anonymizedComments_eq_texts, anonymizedComments_eq_texts, h]

/-- Claim C1 witness. -/
theorem anonymized_context_text_only_witness :
    anonymizedContext [{ page_content := "first comment"
                         metadata := { author := some "alice", score := some 7 } },
                       { page_content := "second comment"
                         metadata := { author := some "bob", score := some 2 } }] =
      "Comment 1: first comment\n\nComment 2: second comment" := by
  have h := anonymized_context_text_only
    [{ page_content := "first comment"
       metadata := { author := some "alice", score := some 7 } },
     { page_content := "second comment"
       metadata := { author := some "bob", score := some 2 } }]
    (by decide)
  rw [h.1]
  rfl

/-- Claim C2: querying a collection key that was never upserted fails with
`CollectionNotFoundError` (spec-modelled store: the vector store is external
library code; spec section 4.4 fixes this contract) rather than silently
returning an empty result — for the Reddit orchestrator and the document
orchestrator alike. -/
theorem query_never_indexed_raises (store : VectorStore)
    (retrieve : List Doc → String → Nat → List Doc)
    (gen : String → String → Except String String)
    (dgen : String → String → String)
    (post_id q : String) (ourl : Option String) (did : Int) (dq : String)
    (hpid : post_id ≠ "") (hq : q ≠ "")
    (hfindR : store.find ("reddit_" ++ post_id) = none)
    (hfindD : store.find ("doc_" ++ toString did) = none) :
    (∃ m, query_reddit_post store retrieve gen true post_id q ourl =
      .error (.collectionNotFound m))
    ∧ ∃ m, query_document store retrieve dgen did dq = .error (.collectionNotFound m) := by
  constructor
  · refine ⟨"Failed to load ChromaDB collection reddit_" ++ post_id ++
      ". The post may not have been indexed yet.", ?_⟩
    simp [query_reddit_post, hpid, hq, hfindR]
  · refine ⟨"Collection doc_" ++ toString did ++ " was never populated.", ?_⟩
    simp [query_document, hfindD]

/-- Claim C2 witness. -/
theorem query_never_indexed_raises_witness :
    (∃ m, query_reddit_post {} takeRetrieve (fun _ _ => .ok "a") true "abc" "what" none =
      .error (.collectionNotFound m))
    ∧ ∃ m, query_document {} takeRetrieve (fun _ _ => "a") 4 "what" =
      .error (.collectionNotFound m) :=
  query_never_indexed_raises {} takeRetrieve (fun _ _ => .ok "a") (fun _ _ => "a")
    "abc" "what" none 4 "what" (by decide) (by decide) rfl rfl

/-- Claim C4: the returned citations are exactly the set of distinct author
values across the retrieval-ordered CitationRecords with the literal
`"[deleted]"` excluded; in particular authors `["alice","[deleted]","bob"]`
yield citations `{"alice","bob"}`. -/
theorem citations_distinct_authors :
    (∀ docs : List Doc,
      (uniqueAuthors docs).toFinset =
        ((citationMapping docs).map CitationRecord.author).toFinset.erase "[deleted]"
      ∧ (uniqueAuthors docs).Nodup)
    ∧ (uniqueAuthors
        [{ page_content := "c1", metadata := { author := some "alice" } },
         { page_content := "c2", metadata := { author := some "[deleted]" } },
         { page_content := "c3", metadata := { author := some "bob" } }]).toFinset =
      {"alice", "bob"} := by
  refine ⟨fun docs => ⟨?_, List.nodup_dedup _⟩, by decide⟩
  unfold uniqueAuthors
  ext a
  simp [List.mem_filter, Finset.mem_erase, and_comm]

/-- Claim C5 counterexample: the claim fails in two independent ways.  The
URL `https://www.reddit.com/r/test/comments/abc123` has the path segment
`abc123` immediately following `/comments/` (the spec-worded reading,
`specSegmentAfterComments`), yet `extract_post_id_from_url` raises: the
source regex `/comments/([a-zA-Z0-9]+)/` also demands a `/` after the id.
And the URL `https://www.reddit.com/r/test/comments/abc_123/title/` has the
slash-terminated path segment `abc_123` immediately following `/comments/`,
yet the code raises: the regex accepts only alphanumeric characters inside
the id. -/
theorem extract_no_trailing_slash_counterexample :
    (extract_post_id_from_url "https://www.reddit.com/r/test/comments/abc123" =
      .error "Could not extract post ID from URL: https://www.reddit.com/r/test/comments/abc123"
    ∧ specSegmentAfterComments "https://www.reddit.com/r/test/comments/abc123" =
      some "abc123")
    ∧ extract_post_id_from_url "https://www.reddit.com/r/test/comments/abc_123/title/" =
      .error "Could not extract post ID from URL: https://www.reddit.com/r/test/comments/abc_123/title/"
    ∧ specSegmentAfterComments "https://www.reddit.com/r/test/comments/abc_123/title/" =
      some "abc_123" := by
  exact ⟨⟨rfl, rfl⟩, rfl, rfl⟩

/-- Claim C5 (amended): for every input URL, identifier extraction succeeds
exactly when the URL decomposes as `pre ++ "/comments/" ++ id ++ "/" ++ post`
with `id` a non-empty run of alphanumeric characters; the returned thread id
is the id of the leftmost such decomposition, and for every URL admitting no
such decomposition the extraction raises `InvalidReferenceError` — so a URL
where a segment follows `/comments/` but ends without the closing slash, or
contains a non-alphanumeric character, also fails. -/
theorem extract_post_id_spec (url : String) :
    (∀ id : String, extract_post_id_from_url url = .ok id ↔
      ∃ pre post : List Char,
        url.toList = pre ++ "/comments/".toList ++ id.toList ++ '/' :: post
        ∧ id.toList ≠ []
        ∧ (∀ c ∈ id.toList, isAlnumAscii c = true)
        ∧ ∀ (pre2 seg2 post2 : List Char),
            url.toList = pre2 ++ "/comments/".toList ++ seg2 ++ '/' :: post2 →
            seg2 ≠ [] → (∀ c ∈ seg2, isAlnumAscii c = true) →
            pre.length ≤ pre2.length)
    ∧ (extract_post_id_from_url url =
        .error ("Could not extract post ID from URL: " ++ url) ↔
      ¬ ∃ pre seg post : List Char,
          url.toList = pre ++ "/comments/".toList ++ seg ++ '/' :: post
          ∧ seg ≠ [] ∧ ∀ c ∈ seg, isAlnumAscii c = true) := by
  have hmatch_of_decomp : ∀ (pre seg post : List Char),
      url.toList = pre ++ "/comments/".toList ++ seg ++ '/' :: post →
      seg ≠ [] → (∀ c ∈ seg, isAlnumAscii c = true) →
      matchCommentsAt (url.toList.drop pre.length) = some seg := by
    intro pre seg post heq hne hal
    simp only [List.append_assoc] at heq
    rw [heq, List.drop_left]
    exact (matchCommentsAt_eq_some _ _).mpr ⟨post, rfl, hne, hal⟩
  constructor
  · intro id
    unfold extract_post_id_from_url
    cases hs : searchComments url.toList with
    | some run =>
      dsimp only
      obtain ⟨k, hk, hlt⟩ := (searchComments_eq_some _ _).mp hs
      obtain ⟨tail, hdecomp, hrun_ne, hrun_al⟩ := (matchCommentsAt_eq_some _ _).mp hk
      have hklen : k ≤ url.toList.length := by
        by_contra hgt
        push_neg at hgt
        rw [List.drop_eq_nil_of_le (le_of_lt hgt)] at hdecomp
        exact absurd hdecomp (by simp)
      have hfull : url.toList =
          url.toList.take k ++ "/comments/".toList ++ run ++ '/' :: tail := by
        conv_lhs => rw [← List.take_append_drop k url.toList]
        rw [hdecomp]
        simp [List.append_assoc]
      constructor
      · intro hok
        obtain rfl : String.mk run = id := Except.ok.inj hok
        refine ⟨url.toList.take k, tail, hfull, hrun_ne, hrun_al, ?_⟩
        intro pre2 seg2 post2 heq2 hne2 hal2
        by_contra hlt2
        push_neg at hlt2
        rw [List.length_take] at hlt2
        have hm2 := hmatch_of_decomp pre2 seg2 post2 heq2 hne2 hal2
        have hnone := hlt pre2.length (by omega)
        rw [hm2] at hnone
        exact Option.noConfusion hnone
      · rintro ⟨pre, post, heq, hne, hal, hmin⟩
        have hm := hmatch_of_decomp pre id.toList post heq hne hal
        have h1 : k ≤ pre.length := by
          by_contra hlt2
          push_neg at hlt2
          have hnone := hlt pre.length hlt2
          rw [hm] at hnone
          exact Option.noConfusion hnone
        have h2 : pre.length ≤ k := by
          have := hmin (url.toList.take k) run tail hfull hrun_ne hrun_al
          rw [List.length_take] at this
          omega
        have hkeq : pre.length = k := le_antisymm h2 h1
        rw [hkeq, hk] at hm
        rw [Option.some.inj hm]
        rfl
    | none =>
      dsimp only
      constructor
      · intro h; exact Except.noConfusion h
      · rintro ⟨pre, post, heq, hne, hal, -⟩
        have hm := hmatch_of_decomp pre id.toList post heq hne hal
        have hnone := (searchComments_eq_none _).mp hs pre.length
        rw [hm] at hnone
        exact Option.noConfusion hnone
  · unfold extract_post_id_from_url
    cases hs : searchComments url.toList with
    | some run =>
      dsimp only
      constructor
      · intro h; exact Except.noConfusion h
      · intro hno
        exfalso
        apply hno
        obtain ⟨k, hk, -⟩ := (searchComments_eq_some _ _).mp hs
        obtain ⟨tail, hdecomp, hrun_ne, hrun_al⟩ := (matchCommentsAt_eq_some _ _).mp hk
        refine ⟨url.toList.take k, run, tail, ?_, hrun_ne, hrun_al⟩
        conv_lhs => rw [← List.take_append_drop k url.toList]
        rw [hdecomp]
        simp [List.append_assoc]
    | none =>
      dsimp only
      constructor
      · rintro - ⟨pre, seg, post, heq, hne, hal⟩
        have hm := hmatch_of_decomp pre seg post heq hne hal
        have hnone := (searchComments_eq_none _).mp hs pre.length
        rw [hm] at hnone
        exact Option.noConfusion hnone
      · intro _; rfl

/-- Claim C5 witness: the characterization applied at the spec's two
scenario URLs — the success side yields the decomposition of the good URL
around `abc123`, and the error side (discharged by evaluation) shows the
bad URL admits no decomposition. -/
theorem extract_post_id_spec_witness :
    (∃ pre post : List Char,
      ("https://www.reddit.com/r/test/comments/abc123/title/" : String).toList =
        pre ++ "/comments/".toList ++ ("abc123" : String).toList ++ '/' :: post)
    ∧ ¬ ∃ pre seg post : List Char,
        ("https://example.com/no-comments-path" : String).toList =
          pre ++ "/comments/".toList ++ seg ++ '/' :: post
        ∧ seg ≠ [] ∧ ∀ c ∈ seg, isAlnumAscii c = true := by
  constructor
  · obtain ⟨pre, post, h1, -, -, -⟩ :=
      ((extract_post_id_spec "https://www.reddit.com/r/test/comments/abc123/title/").1
        "abc123").mp rfl
    exact ⟨pre, post, h1⟩
  · exact ((extract_post_id_spec "https://example.com/no-comments-path").2).mp rfl

/-- Claim C6: every Passage built by the Reddit indexing filter has a trimmed
body of at least 50 characters and comes from a comment whose body was
present and non-empty; it records author (the literal `"[deleted]"` when the
author is unavailable), score (default 0), the submission title as `source`
and the post id — so no empty, missing or short-bodied comment is ever
turned into a Passage or stored. -/
theorem stored_reddit_passage_spec (title pid : String) (comments : List RedditComment)
    (d : Doc) (hd : d ∈ buildDocuments title pid comments) :
    50 ≤ d.page_content.length
    ∧ d.metadata.source = some title
    ∧ d.metadata.post_id = some pid
    ∧ ∃ c ∈ comments, ∃ b, c.body = some b ∧ b ≠ ""
        ∧ d.page_content = pyStrip b
        ∧ d.metadata.author = some (c.author.getD "[deleted]")
        ∧ d.metadata.score = some (c.score.getD 0) := by
  obtain ⟨c, hc, hfc⟩ := List.mem_filterMap.1 hd
  match hb : c.body with
  | none => rw [hb] at hfc; exact absurd hfc (by simp)
  | some b =>
    rw [hb] at hfc
    simp only at hfc
    by_cases hne : b = ""
    · rw [if_pos hne] at hfc; exact absurd hfc (by simp)
    · rw [if_neg hne] at hfc
      by_cases hlen : 50 ≤ (pyStrip b).length
      · rw [if_pos hlen] at hfc
        obtain rfl := Option.some.inj hfc
        exact ⟨hlen, rfl, rfl, c, hc, b, hb, hne, rfl, rfl, rfl⟩
      · rw [if_neg hlen] at hfc
        exact absurd hfc (by simp)

/-- Claim C6 witness. -/
theorem stored_reddit_passage_spec_witness :
    50 ≤ (String.mk (List.replicate 60 'x')).length
    ∧ ∃ c ∈ [({ body := some (String.mk (List.replicate 60 'x')), author := none,
                score := some 12 } : RedditComment)],
        ∃ b, c.body = some b ∧ b ≠ "" := by
  have hd : ({ page_content := String.mk (List.replicate 60 'x')
               metadata := { author := some "[deleted]", score := some 12
                             source := some "Title", post_id := some "p9" } } : Doc) ∈
      buildDocuments "Title" "p9"
        [{ body := some (String.mk (List.replicate 60 'x')), author := none,
           score := some 12 }] := by
    rw [buildDocuments_singleton "Title" "p9" _ none (some 12)
      (mk_replicate_ne_empty 60 'x' (by omega))
      (by rw [pyStrip_replicate 60 'x' (by decide), length_strMk, List.length_replicate]; omega),
      pyStrip_replicate 60 'x' (by decide)]
    exact List.mem_singleton.2 rfl
  have h := stored_reddit_passage_spec "Title" "p9" _ _ hd
  obtain ⟨h1, _, _, c, hc, b, hb, hne, _⟩ := h
  exact ⟨h1, c, hc, b, hb, hne⟩

/-- Claim C7 counterexample: a thread whose only comment is shorter than 50
characters.  `index_reddit_post` RETURNS the error dictionary
(`Except.ok` wrapping `IndexOutcome.errorResult`) — a raised failure would be
`Except.error` — so the claim's "a raised, typed failure" is false; nothing
is upserted (`none`). -/
theorem index_empty_filter_returns_counterexample :
    index_reddit_post true
      (fun _ => .ok ("Title",
        [{ body := some "too short", author := some "alice", score := some 1 }]))
      "https://www.reddit.com/r/test/comments/abc123/title/" =
    .ok (.errorResult "No comments found that meet the minimum length requirement (50 characters)",
         none) := by
  rfl

/-- Claim C7 (amended): when zero comments pass the 50-character length
filter, `index_reddit_post` fails by returning a structured error result
(the `status: error` dictionary with the no-comments message) rather than by
raising, and nothing is upserted into the vector store. -/
theorem index_empty_filter_error_result (title pid url : String)
    (comments : List RedditComment) (h : buildDocuments title pid comments = []) :
    indexRedditOutcome title pid url comments =
      (.errorResult "No comments found that meet the minimum length requirement (50 characters)",
       none) := by
  simp [indexRedditOutcome, h]

/-- Claim C7 witness. -/
theorem index_empty_filter_error_result_witness :
    indexRedditOutcome "Title" "abc123" "u"
      [{ body := some "too short", author := some "alice", score := some 1 }] =
      (.errorResult "No comments found that meet the minimum length requirement (50 characters)",
       none) :=
  index_empty_filter_error_result "Title" "abc123" "u" _ (by decide)

/-- Claim C3 counterexample: indexing a Reddit thread whose only comment has
a 1500-character body stores that passage whole — 1500 characters, above the
1000-character chunk bound — so the Reddit pipeline applies no Chunker
between Loader and Embedder. -/
theorem reddit_stored_unchunked_counterexample :
    (indexRedditOutcome "Title" "p1" "u"
      [{ body := some (String.mk (List.replicate 1500 'a')), author := some "alice",
         score := some 3 }]).2 =
      some ("reddit_p1",
        [{ page_content := String.mk (List.replicate 1500 'a')
           metadata := { author := some "alice", score := some 3, source := some "Title",
                         post_id := some "p1" } }])
    ∧ (String.mk (List.replicate 1500 'a')).length = 1500 := by
  have hb := buildDocuments_singleton "Title" "p1" (String.mk (List.replicate 1500 'a'))
    (some "alice") (some 3)
    (mk_replicate_ne_empty 1500 'a' (by omega))
    (by rw [pyStrip_replicate 1500 'a' (by decide), length_strMk, List.length_replicate]; omega)
  rw [pyStrip_replicate 1500 'a' (by decide)] at hb
  refine ⟨?_, by rw [length_strMk, List.length_replicate]⟩
  rw [indexRedditOutcome, hb]
  rfl

/-- Claim C3 (amended): the Chunker runs between Loader and Embedder only in
the document pipeline — every chunk stored by `index_document` has at most
1000 characters — while Reddit indexing stores the loaded comment passages
directly: whatever `indexRedditOutcome` upserts is exactly the unsplit
`buildDocuments` output, which can exceed the chunk size (see the
counterexample). -/
theorem chunker_document_pipeline_only :
    (∀ (did : Int) (pages : List Doc) (d : Doc), d ∈ (index_document did pages).2 →
      d.page_content.length ≤ 1000)
    ∧ ∀ (title pid url : String) (comments : List RedditComment) (key : String)
        (docs : List Doc),
        (indexRedditOutcome title pid url comments).2 = some (key, docs) →
        docs = buildDocuments title pid comments := by
  constructor
  · intro did pages d hd
    simp only [index_document, splitDocuments, List.mem_flatMap, List.mem_map] at hd
    obtain ⟨d0, _, t, ht, rfl⟩ := hd
    exact chunkText_length_le d0.page_content t ht
  · intro title pid url comments key docs h
    rw [indexRedditOutcome] at h
    split at h
    · exact absurd h (by simp)
    · simp only [Option.some.injEq, Prod.mk.injEq] at h
      exact h.2.symm

/-- Claim C3 witness. -/
theorem chunker_document_pipeline_only_witness :
    ({ page_content := "hi" } : Doc).page_content.length ≤ 1000
    ∧ [({ page_content := String.mk (List.replicate 60 'x')
          metadata := { author := some "[deleted]", score := some 0
                        source := some "T", post_id := some "p" } } : Doc)] =
      buildDocuments "T" "p" [{ body := some (String.mk (List.replicate 60 'x')) }] := by
  constructor
  · exact chunker_document_pipeline_only.1 1 [{ page_content := "hi" }]
      { page_content := "hi" } (by decide)
  · refine chunker_document_pipeline_only.2 "T" "p" "u"
      [{ body := some (String.mk (List.replicate 60 'x')) }] ("reddit_" ++ "p") _ ?_
    rw [indexRedditOutcome,
      buildDocuments_singleton "T" "p" (String.mk (List.replicate 60 'x')) none none
        (mk_replicate_ne_empty 60 'x' (by omega))
        (by rw [pyStrip_replicate 60 'x' (by decide), length_strMk, List.length_replicate]; omega),
      pyStrip_replicate 60 'x' (by decide)]
    rfl

/-- Claim C8: when retrieval returns zero passages, a Reddit thread query
fails with `EmptyRetrievalError` (reddit_service.py 187-188), while a
document query does not fail: it proceeds to the generator (spec-modelled
`modelDocumentGenerator`, the LLM being external) and returns its answer
stating the context lacks the answer. -/
theorem empty_retrieval_thread_fails_document_tolerates (store : VectorStore)
    (retrieve : List Doc → String → Nat → List Doc)
    (gen : String → String → Except String String)
    (pid q : String) (ourl : Option String) (docs ddocs : List Doc) (did : Int)
    (hpid : pid ≠ "") (hq : q ≠ "")
    (hfindR : store.find ("reddit_" ++ pid) = some docs)
    (hret : retrieve docs q 10 = [])
    (hfindD : store.find ("doc_" ++ toString did) = some ddocs)
    (hretD : retrieve ddocs q 4 = []) :
    query_reddit_post store retrieve gen true pid q ourl =
      .error (.emptyRetrieval
        "No relevant comments found for query. The post may not have enough indexed comments.")
    ∧ query_document store retrieve modelDocumentGenerator did q =
      .ok "I cannot find the answer in the provided documents." := by
  constructor
  · simp [query_reddit_post, hpid, hq, hfindR, hret]
  · simp [query_document, hfindD, hretD, modelDocumentGenerator, joinSep]
    rfl

/-- Claim C8 witness. -/
theorem empty_retrieval_thread_fails_document_tolerates_witness :
    query_reddit_post { collections := [("reddit_p7", []), ("doc_4", [])] } takeRetrieve
        (fun _ _ => .ok "a") true "p7" "what" none =
      .error (.emptyRetrieval
        "No relevant comments found for query. The post may not have enough indexed comments.")
    ∧ query_document { collections := [("reddit_p7", []), ("doc_4", [])] } takeRetrieve
        modelDocumentGenerator 4 "what" =
      .ok "I cannot find the answer in the provided documents." :=
  empty_retrieval_thread_fails_document_tolerates
    { collections := [("reddit_p7", []), ("doc_4", [])] } takeRetrieve
    (fun _ _ => .ok "a") "p7" "what" none [] [] 4
    (by decide) (by decide) rfl rfl rfl rfl

/-- Claim C9 counterexample: the failure message `bad api key` contains
`api key` case-insensitively, so the claim maps it to
`AuthenticationError`; the code's `"API key" in error_msg` check is
case-sensitive on the raw message, and neither `authentication`, `quota` nor
`rate limit` occurs, so the code classifies it as the generic error. -/
theorem classify_lowercase_api_key_counterexample :
    classifyGenFailure "bad api key" =
      .genericGeneration "Failed to generate answer from Gemini API: bad api key"
    ∧ containsSubstr (pyLower "bad api key") "api key" = true := by
  exact ⟨rfl, rfl⟩

/-- Claim C9 (amended): generation failures are classified by substring
inspection of the failure message — `API key` matched CASE-SENSITIVELY
against the raw message or `authentication` matched case-insensitively maps
to `AuthenticationError`; otherwise `quota` or `rate limit`
(case-insensitive) maps to `QuotaExceededError`; every other message maps to
`GenericGenerationError`. -/
theorem classify_generation_failures (msg : String) :
    (containsSubstr msg "API key" = true ∨ containsSubstr (pyLower msg) "authentication" = true →
      classifyGenFailure msg = .authenticationError
        ("Gemini API authentication failed. Check your GOOGLE_API_KEY. Error: " ++ msg))
    ∧ (containsSubstr msg "API key" = false →
       containsSubstr (pyLower msg) "authentication" = false →
       containsSubstr (pyLower msg) "quota" = true ∨
         containsSubstr (pyLower msg) "rate limit" = true →
      classifyGenFailure msg = .quotaExceeded
        ("Gemini API quota exceeded or rate limited. Please try again later. Error: " ++ msg))
    ∧ (containsSubstr msg "API key" = false →
       containsSubstr (pyLower msg) "authentication" = false →
       containsSubstr (pyLower msg) "quota" = false →
       containsSubstr (pyLower msg) "rate limit" = false →
      classifyGenFailure msg = .genericGeneration
        ("Failed to generate answer from Gemini API: " ++ msg)) := by
  refine ⟨fun h => ?_, fun h1 h2 h => ?_, fun h1 h2 h3 h4 => ?_⟩
  · rcases h with h | h <;> simp [classifyGenFailure, h]
  · rcases h with h | h <;> simp [classifyGenFailure, h1, h2, h]
  · simp [classifyGenFailure, h1, h2, h3, h4]

/-- Claim C9 witness. -/
theorem classify_generation_failures_witness :
    classifyGenFailure "Invalid API key provided" =
      .authenticationError
        "Gemini API authentication failed. Check your GOOGLE_API_KEY. Error: Invalid API key provided"
    ∧ classifyGenFailure "Rate limit reached" =
      .quotaExceeded
        "Gemini API quota exceeded or rate limited. Please try again later. Error: Rate limit reached"
    ∧ classifyGenFailure "connection reset" =
      .genericGeneration "Failed to generate answer from Gemini API: connection reset" :=
  ⟨(classify_generation_failures "Invalid API key provided").1 (Or.inl rfl),
   (classify_generation_failures "Rate limit reached").2.1 rfl rfl (Or.inr rfl),
   (classify_generation_failures "connection reset").2.2 rfl rfl rfl rfl⟩

/-- Claim C10 counterexample: a successful Reddit query in which the caller
DID supply an original URL — the empty string, falsy in Python — returns the
derived fallback, not the supplied value unchanged. -/
theorem source_url_empty_string_counterexample :
    query_reddit_post
        { collections := [("reddit_abc", [{ page_content := "a comment"
                                            metadata := { author := some "alice" } }])] }
        takeRetrieve (fun _ _ => .ok "the answer") true "abc" "what" (some "") =
      .ok { answer := "the answer", citations := ["alice"],
            source_url := "https://www.reddit.com/comments/abc/" }
    ∧ ("https://www.reddit.com/comments/abc/" : String) ≠ "" := by
  exact ⟨rfl, by decide⟩

/-- Claim C10 (amended): for every successful Reddit query, the returned
`source_url` is the supplied original URL when that URL is non-empty;
when no original URL is supplied — and likewise when the supplied URL is the
empty string, which Python's `or` treats as absent — it is the derived
fallback `https://www.reddit.com/comments/<post_id>/`. -/
theorem source_url_resolution (store : VectorStore)
    (retrieve : List Doc → String → Nat → List Doc)
    (gen : String → String → Except String String)
    (pid q : String) (ourl : Option String) (r : RedditQueryResult)
    (hok : query_reddit_post store retrieve gen true pid q ourl = .ok r) :
    (ourl = none → r.source_url = "https://www.reddit.com/comments/" ++ pid ++ "/")
    ∧ (∀ u, ourl = some u → u ≠ "" → r.source_url = u)
    ∧ (ourl = some "" → r.source_url = "https://www.reddit.com/comments/" ++ pid ++ "/") := by
  have hsrc : r.source_url = resolveSourceUrl ourl pid := by
    unfold query_reddit_post at hok
    split at hok
    · exact Except.noConfusion hok
    · split at hok
      · exact Except.noConfusion hok
      · split at hok
        · exact Except.noConfusion hok
        · dsimp only at hok
          split at hok
          · exact Except.noConfusion hok
          · split at hok
            · exact Except.noConfusion hok
            · split at hok
              · exact Except.noConfusion hok
              · simp only [Except.ok.injEq] at hok
                rw [← hok]
  refine ⟨fun h => ?_, fun u h hu => ?_, fun h => ?_⟩
  · rw [hsrc, h]; rfl
  · rw [hsrc, h]; simp [resolveSourceUrl, hu]
  · rw [hsrc, h]; rfl

/-- Claim C10 witness. -/
theorem source_url_resolution_witness :
    ({ answer := "the answer", citations := ["alice"],
       source_url := "https://www.reddit.com/comments/abc/" } : RedditQueryResult).source_url =
      "https://www.reddit.com/comments/" ++ "abc" ++ "/" :=
  (source_url_resolution
    { collections := [("reddit_abc", [{ page_content := "a comment"
                                        metadata := { author := some "alice" } }])] }
    takeRetrieve (fun _ _ => .ok "the answer") "abc" "what" none
    { answer := "the answer", citations := ["alice"],
      source_url := "https://www.reddit.com/comments/abc/" } rfl).1 rfl

end RagPipeline
